import Mathlib

/-!
# Verification of the MonLivreDeCuisine backend

A shallow embedding of the recipe-management backend (FastAPI + SQLAlchemy):
the SQLAlchemy models (`models.py`), the pydantic request schemas
(`schemas.py`) and the endpoint handlers (`main.py`) are translated into pure
Lean functions over an explicit database state, and the behavioural claims of
the specification are settled against them.

Conventions of the embedding:
* a database is a record of lists of rows, together with the autoincrement
  counters for child tables;
* an endpoint handler is a function `DB → request → Except ApiError result`;
  `ApiError.attributeError` stands for an uncaught Python `AttributeError`
  (surfaced by the framework as an HTTP 500);
* pydantic models are records with exactly the fields declared in
  `schemas.py`; a field that the handler distinguishes between "absent from
  the request body" and "explicitly null" (via `model_dump(exclude_unset=True)`)
  is modelled as `Option (Option α)`;
* SQL `ILIKE '%t%'` is case-insensitive substring containment (SQLite
  semantics, ASCII case folding);
* the `Float` column `ingredients.quantite` is modelled as `Rat`; no
  arithmetic is ever performed on it, values only pass through unchanged.
-/

namespace MonLivre

/-- Embeds `models.py` / `schemas.py` `CategorieRecette`. -/
inductive CategorieRecette
  | entree
  | plat
  | dessert
  | gourmandises
deriving DecidableEq, Repr

/-- Embeds the `users` table row (`models.py`, class `User`). -/
structure User where
  id : Nat
  nom : String
  email : String
  hashed_password : String
  is_admin : Bool
deriving DecidableEq, Repr

/-- Embeds the `recipes` table row (`models.py`, class `Recipe`, lines 34-51).
Note that the model declares no `tags` column. -/
structure Recipe where
  id : Nat
  titre : String
  categorie : CategorieRecette
  temps_prep : Option Int
  temps_cuisson : Option Int
  temperature : Option Int
  auteur_id : Nat
deriving DecidableEq, Repr

/-- Embeds the `ingredients` table row (`models.py`, class `Ingredient`). -/
structure Ingredient where
  id : Nat
  nom : String
  quantite : Option Rat
  unite : Option String
  recipe_id : Nat
deriving DecidableEq, Repr

/-- Embeds the `steps` table row (`models.py`, class `Step`). -/
structure Step where
  id : Nat
  description : String
  ordre : Int
  recipe_id : Nat
deriving DecidableEq, Repr

/-- The database state: the four tables plus the autoincrement counters used
when inserting child rows. -/
structure DB where
  users : List User
  recipes : List Recipe
  ingredients : List Ingredient
  steps : List Step
  nextIngredientId : Nat
  nextStepId : Nat
deriving DecidableEq, Repr

/-- Outcomes of a handler: the HTTP error responses raised via
`HTTPException`, plus `attributeError` for an uncaught Python
`AttributeError` (HTTP 500). -/
inductive ApiError
  | notFound
  | forbidden
  | badRequest
  | attributeError
deriving DecidableEq, Repr

/-- Embeds `schemas.py` `IngredientCreate`. -/
structure IngredientCreate where
  nom : String
  quantite : Option Rat
  unite : Option String
deriving DecidableEq, Repr

/-- Embeds `schemas.py` `StepCreate`. -/
structure StepCreate where
  description : String
  ordre : Int
deriving DecidableEq, Repr

/-- Embeds `schemas.py` `RecipeCreate` (lines 93-95): base fields plus
ingredient and step lists.  The schema declares no `tags` field. -/
structure RecipeCreate where
  titre : String
  categorie : CategorieRecette
  temps_prep : Option Int
  temps_cuisson : Option Int
  temperature : Option Int
  ingredients : List IngredientCreate
  steps : List StepCreate
deriving DecidableEq, Repr

/-- Embeds `schemas.py` `RecipeUpdate` (lines 98-105).  The handler reads the
base fields through `model_dump(exclude_unset=True)`, which distinguishes a
key absent from the request body from a key explicitly set to `null`; a base
field is therefore `Option (Option α)` (`none` = absent, `some none` =
explicit null, `some (some v)` = value).  `ingredients` and `steps` are read
as plain attributes and compared with `is not None`, which conflates absent
and explicit null, so they are a single `Option`.  The schema declares no
`tags` field. -/
structure RecipeUpdate where
  titre : Option (Option String)
  categorie : Option (Option CategorieRecette)
  temps_prep : Option (Option Int)
  temps_cuisson : Option (Option Int)
  temperature : Option (Option Int)
  ingredients : Option (List IngredientCreate)
  steps : Option (List StepCreate)
deriving DecidableEq, Repr

/-- Embeds `schemas.py` `FrigoSearchRequest` (lines 131-132): the only
declared field is `ingredients`.  In particular there is no `strict` or
`strict_mode` field; pydantic ignores unknown keys in the request body and
raises `AttributeError` when the handler reads an undeclared attribute. -/
structure FrigoSearchRequest where
  ingredients : List String
deriving DecidableEq, Repr

/-- Embeds `schemas.py` `FrigoSearchResult`: one entry of the fridge-search
response. -/
structure FrigoSearchResult where
  recipe : Recipe
  match_count : Nat
  matched_ingredients : List String
deriving DecidableEq, Repr

/-- ASCII lower-casing of a character code (the case folding SQLite applies
in `LIKE` / `lower()`). -/
def lowerCode (c : Char) : Nat :=
  if 65 ≤ c.toNat && c.toNat ≤ 90 then c.toNat + 32 else c.toNat

/-- Does the code list start with `pat`? -/
def startsWithCodes : List Nat → List Nat → Bool
  | [], _ => true
  | _ :: _, [] => false
  | a :: pat, b :: hay => a == b && startsWithCodes pat hay

/-- Is `pat` a contiguous sublist of `hay`? -/
def containsSub (pat : List Nat) : List Nat → Bool
  | [] => pat.isEmpty
  | c :: rest => startsWithCodes pat (c :: rest) || containsSub pat rest

/-- Embeds `Ingredient.nom.ilike(f"%{ing}%")` (`main.py` line 369): does
`nom` contain `pat` as a case-insensitive substring? -/
def ilikeContains (nom pat : String) : Bool :=
  containsSub (pat.data.map lowerCode) (nom.data.map lowerCode)

/-- Embeds the `or_(*filters)` predicate of `main.py` line 379: an ingredient
row passes when its name ILIKE-matches at least one searched term. -/
def rowMatches (terms : List String) (i : Ingredient) : Bool :=
  terms.any fun t => ilikeContains i.nom t

/-- The ingredient rows of recipe `rid` that pass the OR-filter, in table
order (the rows the grouped query of `main.py` lines 372-383 aggregates). -/
def matchedRows (db : DB) (terms : List String) (rid : Nat) : List Ingredient :=
  db.ingredients.filter fun i => i.recipe_id == rid && rowMatches terms i

/-- One row of the grouped query of `main.py` lines 372-383:
`(Recipe.id, count(Ingredient.id), group_concat(Ingredient.nom))`. -/
structure MatchRow where
  recipe_id : Nat
  match_count : Nat
  matched_names : String
deriving DecidableEq, Repr

/-- Stable insertion for descending order on `match_count` (embeds
`order_by(desc('match_count'))`, `main.py` line 381). -/
def insertByCountDesc (x : MatchRow) : List MatchRow → List MatchRow
  | [] => [x]
  | y :: ys =>
    if y.match_count < x.match_count then x :: y :: ys
    else y :: insertByCountDesc x ys

/-- Stable sort by `match_count` descending. -/
def sortByCountDesc : List MatchRow → List MatchRow
  | [] => []
  | x :: xs => insertByCountDesc x (sortByCountDesc xs)

/-- Embeds SQLite `group_concat` with its default `","` separator
(`main.py` line 376). -/
def groupConcat : List String → String
  | [] => ""
  | [s] => s
  | s :: rest => s ++ "," ++ groupConcat rest

/-- Embeds Python `matched_names.split(',')` (`main.py` line 399), working on
the character list: split at every comma, keeping empty pieces. -/
def splitCommaAux : List Char → List Char → List (List Char)
  | [], cur => [cur.reverse]
  | c :: rest, cur =>
    if c == ',' then cur.reverse :: splitCommaAux rest []
    else splitCommaAux rest (c :: cur)

/-- Python `s.split(',')` as a list of strings. -/
def pySplitComma (s : String) : List String :=
  (splitCommaAux s.data []).map String.mk

/-- Embeds Python `s.strip()` (`main.py` line 362): drop whitespace from both
ends. -/
def pyStrip (s : String) : String :=
  String.mk (((s.data.dropWhile Char.isWhitespace).reverse.dropWhile
    Char.isWhitespace).reverse)

/-- Embeds the grouped query of `main.py` lines 372-383: recipes joined to
their ingredient rows, filtered by the OR of ILIKE conditions, grouped by
recipe id with `count(Ingredient.id)` and `group_concat(Ingredient.nom)`
(comma separator), ordered by match count descending.  Recipes with no
matching ingredient row produce no group. -/
def matchingRecipes (db : DB) (terms : List String) : List MatchRow :=
  sortByCountDesc <| db.recipes.filterMap fun r =>
    let rows := matchedRows db terms r.id
    if rows.isEmpty then none
    else some ⟨r.id, rows.length, groupConcat (rows.map (·.nom))⟩

/-- Embeds the input cleaning of `main.py` line 362:
`[ing.strip() for ing in search.ingredients if ing.strip()]`. -/
def cleanTerms (l : List String) : List String :=
  (l.map pyStrip).filter fun s => !s.isEmpty

/-- Embeds the handler `search_frigo` (`main.py` lines 351-407).  After the
grouped query, the result loop evaluates `search.strict_mode` for every
matching recipe (line 391), but `FrigoSearchRequest` declares no such field,
so the first iteration raises `AttributeError`: the handler returns a result
only when no recipe matches. -/
def search_frigo (db : DB) (search : FrigoSearchRequest) :
    Except ApiError (List FrigoSearchResult) :=
  let terms := cleanTerms search.ingredients
  if terms.isEmpty then .ok []
  else
    match matchingRecipes db terms with
    | [] => .ok []
    | _ :: _ => .error .attributeError

/-- Embeds the handler `create_recipe` (`main.py` lines 207-251).  Building
the `Recipe` row evaluates `recipe.tags` (line 223), but `RecipeCreate`
declares no `tags` field, so every call raises `AttributeError` before any
row is written. -/
def create_recipe (db : DB) (recipe : RecipeCreate) (current_user : User) :
    Except ApiError DB :=
  .error .attributeError

/-- Embeds `main.py` lines 281-283 for a non-nullable column: the field is
written only when it is present in `update_data` and its value `is not None`;
otherwise the stored value is kept. -/
def applyBase {α : Type} (cur : α) (upd : Option (Option α)) : α :=
  match upd with
  | some (some v) => v
  | _ => cur

/-- Embeds `main.py` lines 281-283 for a nullable column: the column is
written only when the supplied value `is not None`, so an explicit null
leaves the stored value untouched. -/
def applyBaseOpt {α : Type} (cur : Option α) (upd : Option (Option α)) : Option α :=
  match upd with
  | some (some v) => some v
  | _ => cur

/-- Embeds the `Ingredient(...)` inserts of `main.py` lines 294-301: the
supplied ingredient payloads become fresh rows of recipe `rid` with
consecutive autoincrement ids starting at `nid`. -/
def mkIngredientRows : List IngredientCreate → Nat → Nat → List Ingredient
  | [], _, _ => []
  | ic :: rest, rid, nid =>
    ⟨nid, ic.nom, ic.quantite, ic.unite, rid⟩ :: mkIngredientRows rest rid (nid + 1)

/-- Embeds the `Step(...)` inserts of `main.py` lines 308-314. -/
def mkStepRows : List StepCreate → Nat → Nat → List Step
  | [], _, _ => []
  | sc :: rest, rid, nid =>
    ⟨nid, sc.description, sc.ordre, rid⟩ :: mkStepRows rest rid (nid + 1)

/-- Embeds the base-field loop of `main.py` lines 281-283 applied to a stored
recipe row. -/
def applyBaseFields (r : Recipe) (u : RecipeUpdate) : Recipe :=
  { r with
    titre := applyBase r.titre u.titre
    categorie := applyBase r.categorie u.categorie
    temps_prep := applyBaseOpt r.temps_prep u.temps_prep
    temps_cuisson := applyBaseOpt r.temps_cuisson u.temps_cuisson
    temperature := applyBaseOpt r.temperature u.temperature }

/-- Embeds the handler `update_recipe` (`main.py` lines 254-319): 404 when
the recipe does not exist, 403 unless the actor is the owner or an admin;
then the base fields are applied per `applyBase`/`applyBaseOpt` (lines
281-283); the `tags` branch of lines 286-287 is dead because `RecipeUpdate`
declares no `tags` field, so the key is never in `update_data`; finally, when
`ingredients` (resp. `steps`) `is not None`, all existing child rows of the
recipe are deleted and the supplied ones inserted (lines 289-314). -/
def update_recipe (db : DB) (recipe_id : Nat) (u : RecipeUpdate) (current_user : User) :
    Except ApiError DB :=
  match db.recipes.find? (fun r => r.id == recipe_id) with
  | none => .error .notFound
  | some r =>
    if r.auteur_id != current_user.id && !current_user.is_admin then
      .error .forbidden
    else
      let r' : Recipe := applyBaseFields r u
      let db1 : DB :=
        { db with recipes := db.recipes.map fun x => if x.id == recipe_id then r' else x }
      let db2 : DB :=
        match u.ingredients with
        | none => db1
        | some l =>
          { db1 with
            ingredients :=
              db1.ingredients.filter (fun i => i.recipe_id != recipe_id)
                ++ mkIngredientRows l recipe_id db1.nextIngredientId
            nextIngredientId := db1.nextIngredientId + l.length }
      let db3 : DB :=
        match u.steps with
        | none => db2
        | some l =>
          { db2 with
            steps :=
              db2.steps.filter (fun s => s.recipe_id != recipe_id)
                ++ mkStepRows l recipe_id db2.nextStepId
            nextStepId := db2.nextStepId + l.length }
      .ok db3

/-- Embeds the handler `delete_recipe` (`main.py` lines 322-346): 404 when
the recipe does not exist, 403 unless the actor is the owner (line 337 —
there is no admin override on this path), then the recipe row is deleted and
the `cascade="all, delete-orphan"` relationships of `models.py` remove its
ingredient and step rows. -/
def delete_recipe (db : DB) (recipe_id : Nat) (current_user : User) :
    Except ApiError DB :=
  match db.recipes.find? (fun r => r.id == recipe_id) with
  | none => .error .notFound
  | some r =>
    if r.auteur_id != current_user.id then .error .forbidden
    else
      .ok { db with
        recipes := db.recipes.filter fun x => x.id != recipe_id
        ingredients := db.ingredients.filter fun i => i.recipe_id != recipe_id
        steps := db.steps.filter fun s => s.recipe_id != recipe_id }

/-- Embeds the handler `admin_delete_user` (`main.py` lines 431-445) together
with the `require_admin` dependency (lines 412-419): 403 unless the actor is
an admin, 404 when the target does not exist, 400 on self-deletion; otherwise
the user row is deleted and the cascades of `models.py` remove the user's
recipes and, transitively, their ingredient and step rows. -/
def admin_delete_user (db : DB) (user_id : Nat) (admin : User) :
    Except ApiError DB :=
  if !admin.is_admin then .error .forbidden
  else
    match db.users.find? (fun x => x.id == user_id) with
    | none => .error .notFound
    | some user =>
      if user.id == admin.id then .error .badRequest
      else
        let deadRecipes := db.recipes.filter fun r => r.auteur_id == user_id
        .ok { db with
          users := db.users.filter fun x => x.id != user_id
          recipes := db.recipes.filter fun r => r.auteur_id != user_id
          ingredients :=
            db.ingredients.filter fun i => !(deadRecipes.any fun r => r.id == i.recipe_id)
          steps :=
            db.steps.filter fun s => !(deadRecipes.any fun r => r.id == s.recipe_id) }

/-- Embeds the handler `make_first_admin` (`main.py` lines 481-502): if some
admin user already exists the call fails with 403 and nothing is written;
otherwise the calling user's `is_admin` flag is set to true. -/
def make_first_admin (db : DB) (current_user_id : Nat) : Except ApiError DB :=
  match db.users.find? (fun u => u.is_admin) with
  | some _ => .error .forbidden
  | none =>
    .ok { db with
      users := db.users.map fun u =>
        if u.id == current_user_id then { u with is_admin := true } else u }

/-! ## Concrete fixtures

Small database states used to evaluate the handlers on concrete inputs. -/

/-- A plain (non-admin) user who owns the example recipes. -/
def exampleOwner : User :=
  ⟨1, "Alice", "alice@example.com", "hashed", false⟩

/-- An administrator distinct from `exampleOwner`. -/
def exampleAdmin : User :=
  ⟨2, "Root", "root@example.com", "hashed", true⟩

/-- One recipe (id 1, owned by user 1) with the two ingredient rows
`Tomate fraîche` and `Sel`. -/
def saladeDb : DB :=
  { users := [exampleOwner]
    recipes := [⟨1, "Salade de tomates", .entree, none, none, none, 1⟩]
    ingredients :=
      [⟨1, "Tomate fraîche", none, none, 1⟩, ⟨2, "Sel", none, none, 1⟩]
    steps := []
    nextIngredientId := 3
    nextStepId := 1 }

/-- The database of the specification's worked fridge-search example: recipe
A (id 1) has ingredients {Tomate fraîche, Sel}, recipe B (id 2) has
{Tomate fraîche, Oeuf, Farine}; both owned by user 1. -/
def specExampleDb : DB :=
  { users := [exampleOwner]
    recipes :=
      [⟨1, "A", .plat, none, none, none, 1⟩, ⟨2, "B", .plat, none, none, none, 1⟩]
    ingredients :=
      [⟨1, "Tomate fraîche", none, none, 1⟩, ⟨2, "Sel", none, none, 1⟩,
       ⟨3, "Tomate fraîche", none, none, 2⟩, ⟨4, "Oeuf", none, none, 2⟩,
       ⟨5, "Farine", none, none, 2⟩]
    steps := []
    nextIngredientId := 6
    nextStepId := 1 }

/-- A recipe with every nullable base field populated, used to probe the
partial-update semantics.  Owned by user 1. -/
def tarteRecipe : Recipe :=
  ⟨1, "Tarte aux pommes", .dessert, some 10, some 45, some 180, 1⟩

/-- A database holding `tarteRecipe` with one ingredient row and one step
row, plus its owner and an unrelated admin. -/
def tarteDb : DB :=
  { users := [exampleOwner, exampleAdmin]
    recipes := [tarteRecipe]
    ingredients := [⟨1, "Pomme", some 3, none, 1⟩]
    steps := [⟨1, "Préchauffer le four", 1, 1⟩]
    nextIngredientId := 2
    nextStepId := 2 }

/-- The state `tarteDb` reaches after its recipe's ingredient list is
replaced by the empty list. -/
def tarteDbNoIngredients : DB :=
  { tarteDb with ingredients := [] }

/-- The partial update whose body is exactly `{"temps_prep": null}`: every
other field is absent, `temps_prep` is present with an explicit null. -/
def nullPrepUpdate : RecipeUpdate :=
  ⟨none, none, some none, none, none, none, none⟩

/-- The partial update whose body is exactly `{"ingredients": []}`. -/
def emptyIngredientsUpdate : RecipeUpdate :=
  ⟨none, none, none, none, none, some [], none⟩

/-! ## Claim theorems -/

/-- C1: the claim says a non-strict fridge search returns every matching
recipe with `match_count` equal to the number of distinct matching ingredient
rows.  On the code this fails: the grouped query does compute `match_count`
that way (first conjunct — the row `Tomate fraîche` of recipe 1 matches the
pantry term `tomate`, giving one group with count 1), but the handler then
evaluates `search.strict_mode` for every matching recipe and
`FrigoSearchRequest` declares no such field, so the request dies with an
`AttributeError` (HTTP 500) instead of returning any result. -/
theorem c1_search_crashes_despite_match :
    matchingRecipes saladeDb ["tomate"] = [⟨1, 1, "Tomate fraîche"⟩] ∧
    search_frigo saladeDb ⟨["tomate"]⟩ = Except.error ApiError.attributeError :=
  ⟨rfl, rfl⟩

/-- C2: the claim says a strict fridge search keeps exactly the recipes whose
`match_count` equals their total ingredient count.  On the code no strict
search exists: `FrigoSearchRequest` has no strict flag at all (an extra
`strict_mode` key in the request body is ignored by pydantic), and the
handler's read of `search.strict_mode` raises `AttributeError`.  Concretely,
recipe 1 has 2 ingredient rows but only 1 matches the pantry
`["tomate", "oeuf"]`, so the claim would discard it; the code instead fails
with an uncaught error. -/
theorem c2_strict_filter_unreachable :
    (saladeDb.ingredients.filter fun i => i.recipe_id == 1).length = 2 ∧
    matchingRecipes saladeDb ["tomate", "oeuf"] = [⟨1, 1, "Tomate fraîche"⟩] ∧
    search_frigo saladeDb ⟨["tomate", "oeuf"]⟩ = Except.error ApiError.attributeError :=
  ⟨rfl, rfl, rfl⟩

/-- C3: the claim says fridge-search results are sorted by `match_count`
descending.  The grouped query is indeed ordered descending — on the
specification's own example, recipe B (2 matches) precedes recipe A
(1 match) — but the handler never returns these rows: it raises
`AttributeError` on `search.strict_mode` before building any result, so no
sorted sequence is ever produced for a non-empty match set. -/
theorem c3_sorted_query_never_returned :
    matchingRecipes specExampleDb ["tomate", "oeuf"] =
      [⟨2, 2, "Tomate fraîche,Oeuf"⟩, ⟨1, 1, "Tomate fraîche"⟩] ∧
    search_frigo specExampleDb ⟨["tomate", "oeuf"]⟩ =
      Except.error ApiError.attributeError :=
  ⟨rfl, rfl⟩

/-- C8: the claim says tags round-trip through create-then-fetch and that
absent tags differ from an empty sequence.  On the code no recipe can be
created at all: `RecipeCreate` declares no `tags` field (a `tags` key such as
`["rapide","végé"]` in the request body is dropped by pydantic), the `Recipe`
model has no `tags` column, and the handler's read of `recipe.tags` at
`main.py` line 223 raises `AttributeError` before any row is written —
shown here on a concrete creation request. -/
theorem c8_create_recipe_always_raises :
    create_recipe saladeDb ⟨"Tarte", .dessert, none, none, none, [], []⟩ exampleOwner
      = Except.error ApiError.attributeError :=
  rfl

/-- C10: the claim says that when no matched ingredient name contains a
comma, the `matched_ingredients` list (rebuilt by splitting the
comma-joined `group_concat` string) has exactly `match_count` entries.  The
correspondence does hold of the grouped query rows — splitting each
`matched_names` of the example yields exactly `match_count` pieces (first
conjunct) — but the handler raises `AttributeError` on `search.strict_mode`
before ever reaching the split at `main.py` line 399, so no
`matched_ingredients` list is ever returned. -/
theorem c10_split_count_correspondence_unreachable :
    (matchingRecipes specExampleDb ["tomate", "oeuf"]).map
        (fun m => ((pySplitComma m.matched_names).length, m.match_count))
      = [(2, 2), (1, 1)] ∧
    search_frigo specExampleDb ⟨["tomate", "oeuf"]⟩ =
      Except.error ApiError.attributeError :=
  ⟨rfl, rfl⟩

/-- Helper: the shape of a successful `update_recipe`: the target recipe row
must exist, the recipe table is updated pointwise, users are untouched, and
the child tables are either untouched or wholesale-replaced. -/
theorem update_recipe_ok_shape (db : DB) (rid : Nat) (u : RecipeUpdate)
    (cu : User) (db' : DB) (hok : update_recipe db rid u cu = Except.ok db') :
    ∃ r, db.recipes.find? (fun x => x.id == rid) = some r ∧
      db'.recipes
        = db.recipes.map (fun x => if x.id == rid then applyBaseFields r u else x) ∧
      db'.users = db.users ∧
      db'.ingredients
        = (match u.ingredients with
           | none => db.ingredients
           | some l =>
             db.ingredients.filter (fun i => i.recipe_id != rid)
               ++ mkIngredientRows l rid db.nextIngredientId) ∧
      db'.steps
        = (match u.steps with
           | none => db.steps
           | some l =>
             db.steps.filter (fun s => s.recipe_id != rid)
               ++ mkStepRows l rid db.nextStepId) := by
  unfold update_recipe at hok
  cases hfind : db.recipes.find? (fun x => x.id == rid) with
  | none => rw [hfind] at hok; simp at hok
  | some r =>
    rw [hfind] at hok
    dsimp only at hok
    refine ⟨r, rfl, ?_⟩
    split at hok
    · simp at hok
    · cases hi : u.ingredients <;> cases hs : u.steps <;>
        simp only [hi, hs] at hok <;>
        (injection hok with h; subst h) <;> simp

/-- Helper: replacing, in a list of recipes, the rows of id `rid` by a row
`r'` that keeps the id of the first such row makes `find?` return `r'`. -/
theorem find?_map_replace (l : List Recipe) (rid : Nat) (r r' : Recipe)
    (hfind : l.find? (fun x => x.id == rid) = some r) (hid : r'.id = r.id) :
    (l.map fun x => if x.id == rid then r' else x).find? (fun x => x.id == rid)
      = some r' := by
  induction l with
  | nil => simp at hfind
  | cons a l ih =>
    rw [List.find?_cons] at hfind
    by_cases h : (a.id == rid) = true
    · rw [h] at hfind
      dsimp only at hfind
      injection hfind with ha
      rw [List.map_cons, if_pos h, List.find?_cons,
        show (r'.id == rid) = true by rw [hid, ← ha]; exact h]
    · rw [Bool.not_eq_true] at h
      rw [h] at hfind
      dsimp only at hfind
      rw [List.map_cons, if_neg (by simp [h]), List.find?_cons, h]
      dsimp only
      exact ih hfind

/-- C4 (amended): in a successful partial update, a base field that is
absent from the request, or supplied with an explicit null, is left
unchanged — an explicit null does NOT clear a nullable field — while a base
field supplied with a proper value is overwritten.  The original claim's
clearing behaviour for explicit null is refuted by
`c4_explicit_null_not_cleared`. -/
theorem c4_update_base_fields (db : DB) (rid : Nat) (u : RecipeUpdate)
    (cu : User) (r : Recipe) (db' : DB)
    (hfind : db.recipes.find? (fun x => x.id == rid) = some r)
    (hok : update_recipe db rid u cu = Except.ok db') :
    ∃ r', db'.recipes.find? (fun x => x.id == rid) = some r' ∧
      ((u.titre = none ∨ u.titre = some none) → r'.titre = r.titre) ∧
      ((u.categorie = none ∨ u.categorie = some none) → r'.categorie = r.categorie) ∧
      ((u.temps_prep = none ∨ u.temps_prep = some none) →
        r'.temps_prep = r.temps_prep) ∧
      ((u.temps_cuisson = none ∨ u.temps_cuisson = some none) →
        r'.temps_cuisson = r.temps_cuisson) ∧
      ((u.temperature = none ∨ u.temperature = some none) →
        r'.temperature = r.temperature) ∧
      (∀ v, u.titre = some (some v) → r'.titre = v) ∧
      (∀ v, u.temps_prep = some (some v) → r'.temps_prep = some v) := by
  obtain ⟨r0, hfind0, hrec, -, -, -⟩ := update_recipe_ok_shape db rid u cu db' hok
  rw [hfind] at hfind0
  injection hfind0 with h0
  subst h0
  refine ⟨applyBaseFields r u, ?_, ?_, ?_, ?_, ?_, ?_, ?_, ?_⟩
  · rw [hrec]
    exact find?_map_replace _ _ _ _ hfind rfl
  · rintro (h | h) <;> simp [applyBaseFields, applyBase, h]
  · rintro (h | h) <;> simp [applyBaseFields, applyBase, h]
  · rintro (h | h) <;> simp [applyBaseFields, applyBaseOpt, h]
  · rintro (h | h) <;> simp [applyBaseFields, applyBaseOpt, h]
  · rintro (h | h) <;> simp [applyBaseFields, applyBaseOpt, h]
  · intro v h; simp [applyBaseFields, applyBase, h]
  · intro v h; simp [applyBaseFields, applyBaseOpt, h]

/-- Helper: rows kept by the `recipe_id != rid` filter all fail the
`recipe_id == rid` filter. -/
theorem filter_ne_filter_eq_nil_ing (l : List Ingredient) (rid : Nat) :
    ((l.filter fun i => i.recipe_id != rid).filter fun i => i.recipe_id == rid)
      = [] := by
  induction l with
  | nil => rfl
  | cons a l ih => by_cases h : a.recipe_id = rid <;> simp [List.filter_cons, h, ih]

/-- Helper: step version of `filter_ne_filter_eq_nil_ing`. -/
theorem filter_ne_filter_eq_nil_step (l : List Step) (rid : Nat) :
    ((l.filter fun s => s.recipe_id != rid).filter fun s => s.recipe_id == rid)
      = [] := by
  induction l with
  | nil => rfl
  | cons a l ih => by_cases h : a.recipe_id = rid <;> simp [List.filter_cons, h, ih]

/-- Helper: freshly built ingredient rows all carry the target recipe id. -/
theorem mkIngredientRows_filter_eq (l : List IngredientCreate) (rid n : Nat) :
    ((mkIngredientRows l rid n).filter fun i => i.recipe_id == rid)
      = mkIngredientRows l rid n := by
  induction l generalizing n with
  | nil => rfl
  | cons a l ih => simp [mkIngredientRows, List.filter_cons, ih]

/-- Helper: freshly built step rows all carry the target recipe id. -/
theorem mkStepRows_filter_eq (l : List StepCreate) (rid n : Nat) :
    ((mkStepRows l rid n).filter fun s => s.recipe_id == rid)
      = mkStepRows l rid n := by
  induction l generalizing n with
  | nil => rfl
  | cons a l ih => simp [mkStepRows, List.filter_cons, ih]

/-- Helper: the payload content of freshly built ingredient rows is the
supplied list. -/
theorem mkIngredientRows_map_content (l : List IngredientCreate) (rid n : Nat) :
    ((mkIngredientRows l rid n).map
        fun i => IngredientCreate.mk i.nom i.quantite i.unite) = l := by
  induction l generalizing n with
  | nil => rfl
  | cons a l ih => cases a; simp [mkIngredientRows, ih]

/-- Helper: the payload content of freshly built step rows is the supplied
list. -/
theorem mkStepRows_map_content (l : List StepCreate) (rid n : Nat) :
    ((mkStepRows l rid n).map fun s => StepCreate.mk s.description s.ordre) = l := by
  induction l generalizing n with
  | nil => rfl
  | cons a l ih => cases a; simp [mkStepRows, ih]

/-- C5: in a successful update, a supplied ingredient list (empty included)
wholesale-replaces the recipe's stored ingredient rows — afterwards the
recipe's rows are exactly the supplied payloads, in order — and an absent
ingredients key leaves the ingredient table untouched; likewise for steps. -/
theorem c5_update_replaces_children (db : DB) (rid : Nat) (u : RecipeUpdate)
    (cu : User) (db' : DB) (hok : update_recipe db rid u cu = Except.ok db') :
    (∀ l, u.ingredients = some l →
      (db'.ingredients.filter (fun i => i.recipe_id == rid)).map
          (fun i => IngredientCreate.mk i.nom i.quantite i.unite) = l) ∧
    (u.ingredients = none → db'.ingredients = db.ingredients) ∧
    (∀ l, u.steps = some l →
      (db'.steps.filter (fun s => s.recipe_id == rid)).map
          (fun s => StepCreate.mk s.description s.ordre) = l) ∧
    (u.steps = none → db'.steps = db.steps) := by
  obtain ⟨r0, -, -, -, hing, hstep⟩ := update_recipe_ok_shape db rid u cu db' hok
  refine ⟨?_, ?_, ?_, ?_⟩
  · intro l hl
    rw [hl] at hing
    dsimp only at hing
    rw [hing, List.filter_append, filter_ne_filter_eq_nil_ing,
      mkIngredientRows_filter_eq, List.nil_append, mkIngredientRows_map_content]
  · intro hl; rw [hl] at hing; exact hing
  · intro l hl
    rw [hl] at hstep
    dsimp only at hstep
    rw [hstep, List.filter_append, filter_ne_filter_eq_nil_step,
      mkStepRows_filter_eq, List.nil_append, mkStepRows_map_content]
  · intro hl; rw [hl] at hstep; exact hstep

/-- C6: deletion is owner-only with NO admin override — an admin who is not
the owner gets 403 from `delete_recipe` — while the same admin's
`update_recipe` on the same recipe succeeds (owner-or-admin check),
confirming the deliberate asymmetry. -/
theorem c6_delete_owner_only (db : DB) (rid : Nat) (cu : User) (r : Recipe)
    (u : RecipeUpdate)
    (hfind : db.recipes.find? (fun x => x.id == rid) = some r)
    (hne : r.auteur_id ≠ cu.id) (hadmin : cu.is_admin = true) :
    delete_recipe db rid cu = Except.error ApiError.forbidden ∧
    ∃ db', update_recipe db rid u cu = Except.ok db' := by
  constructor
  · unfold delete_recipe
    rw [hfind]
    dsimp only
    rw [if_pos (show (r.auteur_id != cu.id) = true by simp [hne])]
  · unfold update_recipe
    rw [hfind]
    dsimp only
    rw [if_neg (show ¬(r.auteur_id != cu.id && !cu.is_admin) = true by
      simp [hadmin])]
    exact ⟨_, rfl⟩

/-- C7: `make_first_admin` called by an existing user succeeds exactly when
the count of admin users is zero; on success the caller's admin flag becomes
true, and when an admin already exists the call fails with 403 (and, the
state being returned unchanged only on success, no flag changes). -/
theorem c7_first_admin_bootstrap (db : DB) (uid : Nat) (a : User)
    (hmem : a ∈ db.users) (hid : a.id = uid) :
    ((∃ db', make_first_admin db uid = Except.ok db')
        ↔ db.users.countP (fun x => x.is_admin) = 0) ∧
    (db.users.countP (fun x => x.is_admin) = 0 →
      ∃ db', make_first_admin db uid = Except.ok db' ∧
        ∃ a' ∈ db'.users, a'.id = uid ∧ a'.is_admin = true) ∧
    (db.users.countP (fun x => x.is_admin) ≠ 0 →
      make_first_admin db uid = Except.error ApiError.forbidden) := by
  unfold make_first_admin
  cases hfa : db.users.find? (fun x => x.is_admin) with
  | some w =>
    have hw := List.find?_some hfa
    have hwmem := List.mem_of_find?_eq_some hfa
    have hcount : db.users.countP (fun x => x.is_admin) ≠ 0 := by
      have : 0 < db.users.countP (fun x => x.is_admin) :=
        List.countP_pos_iff.mpr ⟨w, hwmem, hw⟩
      omega
    refine ⟨?_, ?_, ?_⟩
    · constructor
      · rintro ⟨db', hdb'⟩; simp at hdb'
      · intro h; exact absurd h hcount
    · intro h; exact absurd h hcount
    · intro _; rfl
  | none =>
    have hnone := List.find?_eq_none.mp hfa
    have hcount : db.users.countP (fun x => x.is_admin) = 0 :=
      List.countP_eq_zero.mpr hnone
    refine ⟨?_, ?_, ?_⟩
    · exact ⟨fun _ => hcount, fun _ => ⟨_, rfl⟩⟩
    · intro _
      refine ⟨_, rfl, ?_⟩
      refine ⟨if a.id == uid then { a with is_admin := true } else a,
        List.mem_map_of_mem _ hmem, ?_⟩
      rw [if_pos (show (a.id == uid) = true by simp [hid])]
      exact ⟨hid, rfl⟩
    · intro h; exact absurd hcount h

/-- C9: a successful admin deletion of a user removes, by cascade, every
recipe the user owned and every ingredient and step row of those recipes:
none remain in the resulting state. -/
theorem c9_delete_user_cascades (db : DB) (uid : Nat) (adm target : User)
    (hadmin : adm.is_admin = true)
    (hfind : db.users.find? (fun x => x.id == uid) = some target)
    (hne : uid ≠ adm.id) :
    ∃ db', admin_delete_user db uid adm = Except.ok db' ∧
      (∀ r ∈ db'.recipes, r.auteur_id ≠ uid) ∧
      (∀ i ∈ db'.ingredients, ∀ r ∈ db.recipes,
        r.auteur_id = uid → i.recipe_id ≠ r.id) ∧
      (∀ s ∈ db'.steps, ∀ r ∈ db.recipes,
        r.auteur_id = uid → s.recipe_id ≠ r.id) := by
  have htid : target.id = uid := by
    have := List.find?_some hfind; simpa using this
  unfold admin_delete_user
  rw [hadmin]
  dsimp only
  rw [hfind]
  dsimp only
  rw [if_neg (show ¬(target.id == adm.id) = true by simp [htid, hne])]
  refine ⟨_, rfl, ?_, ?_, ?_⟩
  · intro r hr
    have := (List.mem_filter.mp hr).2
    simpa using this
  · intro i hi r hr hauteur
    have hfilt := (List.mem_filter.mp hi).2
    have hany : (db.recipes.filter fun x => x.auteur_id == uid).any
        (fun x => x.id == i.recipe_id) = false := by
      simpa using hfilt
    have hrdead : r ∈ db.recipes.filter fun x => x.auteur_id == uid :=
      List.mem_filter.mpr ⟨hr, by simp [hauteur]⟩
    have := List.any_eq_false.mp hany r hrdead
    simp at this
    omega
  · intro s hs r hr hauteur
    have hfilt := (List.mem_filter.mp hs).2
    have hany : (db.recipes.filter fun x => x.auteur_id == uid).any
        (fun x => x.id == s.recipe_id) = false := by
      simpa using hfilt
    have hrdead : r ∈ db.recipes.filter fun x => x.auteur_id == uid :=
      List.mem_filter.mpr ⟨hr, by simp [hauteur]⟩
    have := List.any_eq_false.mp hany r hrdead
    simp at this
    omega

/-- C4 counterexample: the body `{"temps_prep": null}` sent by the owner does
NOT clear `temps_prep`: the update is a complete no-op (the resulting state
is `tarteDb` itself) and the stored `temps_prep` is still `some 10`, whereas
the claim requires it to become absent. -/
theorem c4_explicit_null_not_cleared :
    update_recipe tarteDb 1 nullPrepUpdate exampleOwner = Except.ok tarteDb ∧
    tarteDb.recipes.find? (fun x => x.id == 1) = some tarteRecipe ∧
    tarteRecipe.temps_prep = some 10 ∧ some (10 : Int) ≠ none :=
  ⟨rfl, rfl, rfl, by simp⟩

/-- Witness for C4 at a concrete input: the owner updates `tarteRecipe` with
`{"temps_prep": null}`; the hypotheses hold and every base field is
unchanged. -/
theorem c4_update_base_fields_witness :
    (tarteDb.recipes.find? (fun x => x.id == 1) = some tarteRecipe) ∧
    (update_recipe tarteDb 1 nullPrepUpdate exampleOwner = Except.ok tarteDb) ∧
    (∃ r', tarteDb.recipes.find? (fun x => x.id == 1) = some r' ∧
      ((nullPrepUpdate.titre = none ∨ nullPrepUpdate.titre = some none) →
        r'.titre = tarteRecipe.titre) ∧
      ((nullPrepUpdate.categorie = none ∨ nullPrepUpdate.categorie = some none) →
        r'.categorie = tarteRecipe.categorie) ∧
      ((nullPrepUpdate.temps_prep = none ∨ nullPrepUpdate.temps_prep = some none) →
        r'.temps_prep = tarteRecipe.temps_prep) ∧
      ((nullPrepUpdate.temps_cuisson = none ∨
          nullPrepUpdate.temps_cuisson = some none) →
        r'.temps_cuisson = tarteRecipe.temps_cuisson) ∧
      ((nullPrepUpdate.temperature = none ∨ nullPrepUpdate.temperature = some none) →
        r'.temperature = tarteRecipe.temperature) ∧
      (∀ v, nullPrepUpdate.titre = some (some v) → r'.titre = v) ∧
      (∀ v, nullPrepUpdate.temps_prep = some (some v) → r'.temps_prep = some v)) :=
  ⟨rfl, rfl,
    c4_update_base_fields tarteDb 1 nullPrepUpdate exampleOwner tarteRecipe tarteDb
      rfl rfl⟩

/-- Witness for C5 at a concrete input: the owner sends
`{"ingredients": []}`; the recipe's ingredient set becomes empty (the spec's
own example) and the steps are untouched. -/
theorem c5_update_replaces_children_witness :
    (update_recipe tarteDb 1 emptyIngredientsUpdate exampleOwner
        = Except.ok tarteDbNoIngredients) ∧
    ((∀ l, emptyIngredientsUpdate.ingredients = some l →
      (tarteDbNoIngredients.ingredients.filter (fun i => i.recipe_id == 1)).map
          (fun i => IngredientCreate.mk i.nom i.quantite i.unite) = l) ∧
    (emptyIngredientsUpdate.ingredients = none →
      tarteDbNoIngredients.ingredients = tarteDb.ingredients) ∧
    (∀ l, emptyIngredientsUpdate.steps = some l →
      (tarteDbNoIngredients.steps.filter (fun s => s.recipe_id == 1)).map
          (fun s => StepCreate.mk s.description s.ordre) = l) ∧
    (emptyIngredientsUpdate.steps = none →
      tarteDbNoIngredients.steps = tarteDb.steps)) :=
  ⟨rfl,
    c5_update_replaces_children tarteDb 1 emptyIngredientsUpdate exampleOwner
      tarteDbNoIngredients rfl⟩

/-- Witness for C6 at a concrete input: the admin (id 2) is not the owner of
`tarteRecipe` (owner id 1): delete is forbidden for them while update
succeeds. -/
theorem c6_delete_owner_only_witness :
    (tarteDb.recipes.find? (fun x => x.id == 1) = some tarteRecipe) ∧
    (tarteRecipe.auteur_id ≠ exampleAdmin.id) ∧
    (exampleAdmin.is_admin = true) ∧
    (delete_recipe tarteDb 1 exampleAdmin = Except.error ApiError.forbidden ∧
      ∃ db', update_recipe tarteDb 1 nullPrepUpdate exampleAdmin = Except.ok db') :=
  ⟨rfl, by decide, rfl,
    c6_delete_owner_only tarteDb 1 exampleAdmin tarteRecipe nullPrepUpdate rfl
      (by decide) rfl⟩

/-- Witness for C7 at a concrete input: `saladeDb` has a single, non-admin
user (id 1), so the bootstrap succeeds and flips that user's admin flag. -/
theorem c7_first_admin_bootstrap_witness :
    (exampleOwner ∈ saladeDb.users) ∧ (exampleOwner.id = 1) ∧
    (((∃ db', make_first_admin saladeDb 1 = Except.ok db')
        ↔ saladeDb.users.countP (fun x => x.is_admin) = 0) ∧
    (saladeDb.users.countP (fun x => x.is_admin) = 0 →
      ∃ db', make_first_admin saladeDb 1 = Except.ok db' ∧
        ∃ a' ∈ db'.users, a'.id = 1 ∧ a'.is_admin = true) ∧
    (saladeDb.users.countP (fun x => x.is_admin) ≠ 0 →
      make_first_admin saladeDb 1 = Except.error ApiError.forbidden)) :=
  ⟨by simp [saladeDb], rfl,
    c7_first_admin_bootstrap saladeDb 1 exampleOwner (by simp [saladeDb]) rfl⟩

/-- Witness for C9 at a concrete input: the admin (id 2) deletes user 1, the
owner of `tarteRecipe`; afterwards no recipe of user 1 and no child row of
`tarteRecipe` remains. -/
theorem c9_delete_user_cascades_witness :
    (exampleAdmin.is_admin = true) ∧
    (tarteDb.users.find? (fun x => x.id == 1) = some exampleOwner) ∧
    ((1 : Nat) ≠ exampleAdmin.id) ∧
    (∃ db', admin_delete_user tarteDb 1 exampleAdmin = Except.ok db' ∧
      (∀ r ∈ db'.recipes, r.auteur_id ≠ 1) ∧
      (∀ i ∈ db'.ingredients, ∀ r ∈ tarteDb.recipes,
        r.auteur_id = 1 → i.recipe_id ≠ r.id) ∧
      (∀ s ∈ db'.steps, ∀ r ∈ tarteDb.recipes,
        r.auteur_id = 1 → s.recipe_id ≠ r.id)) :=
  ⟨rfl, rfl, by decide,
    c9_delete_user_cascades tarteDb 1 exampleAdmin exampleOwner rfl rfl (by decide)⟩

end MonLivre
